import Mathlib

set_option maxRecDepth 100000

/-!
# Verification of the accessgrid-py client library

A shallow embedding of `src/accessgrid/client.py` (the `accessgrid` Python
SDK).  The library signs every HTTP request with
HMAC-SHA256(secret_key, base64(json.dumps(body))) and classifies responses
into typed errors.  We embed the byte-level primitives (UTF-8, base64,
SHA-256, HMAC, Python's `json.dumps` for the value shapes the SDK sends,
and a JSON reader standing for `response.json()`), then the client itself:
request construction, header production, and response classification.
All definitions are executable so concrete examples evaluate by `decide`
or `rfl`.
-/

namespace AccessGridPy

/-! ## Byte-level primitives -/

/-- Truncate to a 32-bit word, as CPython's fixed-width hash arithmetic does. -/
def w32 (n : Nat) : Nat := n % 4294967296

/-- 32-bit right rotation. -/
def rotr (n x : Nat) : Nat := w32 ((x >>> n) ||| (x <<< (32 - n)))

/-- 32-bit right shift. -/
def shr (n x : Nat) : Nat := x >>> n

/-- Bitwise complement on 32-bit words. -/
def wnot (x : Nat) : Nat := 4294967295 - (x % 4294967296)

/-- UTF-8 encoding of a single code point (`str.encode()` in Python). -/
def utf8EncodeChar (c : Nat) : List Nat :=
  if c < 128 then [c]
  else if c < 2048 then
    [192 ||| (c >>> 6), 128 ||| (c &&& 63)]
  else if c < 65536 then
    [224 ||| (c >>> 12), 128 ||| ((c >>> 6) &&& 63), 128 ||| (c &&& 63)]
  else
    [240 ||| (c >>> 18), 128 ||| ((c >>> 12) &&& 63),
     128 ||| ((c >>> 6) &&& 63), 128 ||| (c &&& 63)]

/-- The UTF-8 bytes of a string — the embedding of Python's `s.encode()`. -/
def strBytes (s : String) : List Nat :=
  (s.toList.map Char.toNat).flatMap utf8EncodeChar

/-- The base64 alphabet. -/
def b64Alphabet : List Char :=
  "ABCDEFGHIJKLMNOPQRSTUVWXYZabcdefghijklmnopqrstuvwxyz0123456789+/".toList

/-- One base64 digit. -/
def b64Digit (n : Nat) : Char := b64Alphabet.getD n 'A'

/-- Base64-encode a byte list, 3 bytes at a time, with `=` padding
(`base64.b64encode` in Python). -/
def b64Groups : List Nat → List Char
  | [] => []
  | [a] =>
      [b64Digit (a >>> 2), b64Digit ((a &&& 3) <<< 4), '=', '=']
  | [a, b] =>
      [b64Digit (a >>> 2), b64Digit (((a &&& 3) <<< 4) ||| (b >>> 4)),
       b64Digit ((b &&& 15) <<< 2), '=']
  | a :: b :: c :: rest =>
      b64Digit (a >>> 2) :: b64Digit (((a &&& 3) <<< 4) ||| (b >>> 4)) ::
      b64Digit (((b &&& 15) <<< 2) ||| (c >>> 6)) :: b64Digit (c &&& 63) ::
      b64Groups rest

/-- `base64.b64encode(bytes).decode()`. -/
def base64Encode (bytes : List Nat) : String :=
  String.mk (b64Groups bytes)

/-- One lowercase hexadecimal digit. -/
def hexDigit (n : Nat) : Char :=
  "0123456789abcdef".toList.getD n '0'

/-- Lowercase hex encoding of a byte list (`.hexdigest()` in Python). -/
def hexLower (bytes : List Nat) : String :=
  String.mk (bytes.flatMap (fun b => [hexDigit (b >>> 4), hexDigit (b &&& 15)]))

/-! ## SHA-256 (FIPS 180-4), over `Nat` words reduced mod 2^32 -/

/-- The 64 SHA-256 round constants, written in decimal. -/
def shaK : List Nat :=
  [1116352408, 1899447441, 3049323471, 3921009573,
   961987163, 1508970993, 2453635748, 2870763221,
   3624381080, 310598401, 607225278, 1426881987,
   1925078388, 2162078206, 2614888103, 3248222580,
   3835390401, 4022224774, 264347078, 604807628,
   770255983, 1249150122, 1555081692, 1996064986,
   2554220882, 2821834349, 2952996808, 3210313671,
   3336571891, 3584528711, 113926993, 338241895,
   666307205, 773529912, 1294757372, 1396182291,
   1695183700, 1986661051, 2177026350, 2456956037,
   2730485921, 2820302411, 3259730800, 3345764771,
   3516065817, 3600352804, 4094571909, 275423344,
   430227734, 506948616, 659060556, 883997877,
   958139571, 1322822218, 1537002063, 1747873779,
   1955562222, 2024104815, 2227730452, 2361852424,
   2428436474, 2756734187, 3204031479, 3329325298]

/-- The SHA-256 initial hash value, written in decimal. -/
def shaH0 : List Nat :=
  [1779033703, 3144134277, 1013904242, 2773480762,
   1359893119, 2600822924, 528734635, 1541459225]

/-- σ0 message-schedule function. -/
def sigma0 (x : Nat) : Nat := w32 (rotr 7 x ^^^ rotr 18 x ^^^ shr 3 x)

/-- σ1 message-schedule function. -/
def sigma1 (x : Nat) : Nat := w32 (rotr 17 x ^^^ rotr 19 x ^^^ shr 10 x)

/-- Σ0 compression function. -/
def bigSigma0 (x : Nat) : Nat := w32 (rotr 2 x ^^^ rotr 13 x ^^^ rotr 22 x)

/-- Σ1 compression function. -/
def bigSigma1 (x : Nat) : Nat := w32 (rotr 6 x ^^^ rotr 11 x ^^^ rotr 25 x)

/-- Ch(x,y,z). -/
def shaCh (x y z : Nat) : Nat := w32 ((x &&& y) ^^^ (wnot x &&& z))

/-- Maj(x,y,z). -/
def shaMaj (x y z : Nat) : Nat := w32 ((x &&& y) ^^^ (x &&& z) ^^^ (y &&& z))

/-- Extend the 16-word message block to the 64-word schedule.
`acc` holds the schedule so far in reverse order. -/
def shaExtend : Nat → List Nat → List Nat
  | 0, acc => acc.reverse
  | fuel + 1, acc =>
      let w2 := acc.getD 1 0
      let w7 := acc.getD 6 0
      let w15 := acc.getD 14 0
      let w16 := acc.getD 15 0
      shaExtend fuel (w32 (sigma1 w2 + w7 + sigma0 w15 + w16) :: acc)

/-- One round of the SHA-256 compression loop. -/
def shaRound (st : List Nat) (kw : Nat × Nat) : List Nat :=
  match st with
  | [a, b, c, d, e, f, g, h] =>
      let t1 := w32 (h + bigSigma1 e + shaCh e f g + kw.1 + kw.2)
      let t2 := w32 (bigSigma0 a + shaMaj a b c)
      [w32 (t1 + t2), a, b, c, w32 (d + t1), e, f, g]
  | st => st

/-- Compress one 64-entry schedule into the running hash. -/
def shaCompress (hs : List Nat) (sched : List Nat) : List Nat :=
  let out := (shaK.zip sched).foldl shaRound hs
  (hs.zip out).map (fun p => w32 (p.1 + p.2))

/-- Big-endian 32-bit words from bytes (4 bytes per word). -/
def bytesToWords : List Nat → List Nat
  | b0 :: b1 :: b2 :: b3 :: rest =>
      (((b0 <<< 8 ||| b1) <<< 8 ||| b2) <<< 8 ||| b3) :: bytesToWords rest
  | _ => []

/-- Big-endian bytes of a `k`-byte integer. -/
def natToBytesBE (k n : Nat) : List Nat :=
  (List.range k).map (fun i => (n >>> (8 * (k - 1 - i))) &&& 255)

/-- SHA-256 padding: append `0x80`, zeros to 56 mod 64, then the 64-bit
bit length. -/
def shaPad (msg : List Nat) : List Nat :=
  let len := msg.length
  let zeroCount := (119 - len % 64) % 64
  msg ++ 128 :: List.replicate zeroCount 0 ++ natToBytesBE 8 (8 * len)

/-- Split a list into chunks of 16 words (one SHA-256 block), with fuel for
structural recursion so the kernel can evaluate it. -/
def chunk16Fuel : Nat → List Nat → List (List Nat)
  | 0, _ => []
  | _, [] => []
  | fuel + 1, ws => ws.take 16 :: chunk16Fuel fuel (ws.drop 16)

/-- Split a list into chunks of 16 words (one SHA-256 block). -/
def chunk16 (ws : List Nat) : List (List Nat) :=
  chunk16Fuel ws.length ws

/-- SHA-256 of a byte list, as 32 bytes. -/
def sha256 (msg : List Nat) : List Nat :=
  let blocks := chunk16 (bytesToWords (shaPad msg))
  let hs := blocks.foldl
    (fun hs block => shaCompress hs (shaExtend 48 block.reverse)) shaH0
  hs.flatMap (natToBytesBE 4)

/-- HMAC-SHA256 (RFC 2104) over byte lists, as `hmac.new(key, msg,
hashlib.sha256).digest()`. -/
def hmacSha256 (key msg : List Nat) : List Nat :=
  let k0 := if key.length > 64 then sha256 key else key
  let kp := k0 ++ List.replicate (64 - k0.length) 0
  let ipad := kp.map (fun b => b ^^^ 0x36)
  let opad := kp.map (fun b => b ^^^ 0x5c)
  sha256 (opad ++ sha256 (ipad ++ msg))

/-! ## JSON values

The SDK serializes request bodies with `json.dumps` (CPython defaults:
item separator `", "`, key separator `": "`, `ensure_ascii=True`) and reads
response bodies with `response.json()` (`json.loads`).  We model JSON
values with integer numerals — the SDK's own payloads and every response
shape the claims touch are strings, integers, booleans, nulls, objects and
arrays; float literals are outside the modelled subset and make the reader
fail. -/

inductive JValue where
  | null
  | bool (b : Bool)
  | num (n : Int)
  | str (s : String)
  | arr (elems : List JValue)
  | obj (fields : List (String × JValue))

/-- A Python dict with JSON-serializable values (e.g. the `kwargs` of the
resource-client methods, or a decoded response object). -/
abbrev JObj := List (String × JValue)

/-- Four lowercase hex digits, as in `\uXXXX` escapes. -/
def hex4 (n : Nat) : List Char :=
  [hexDigit ((n >>> 12) &&& 15), hexDigit ((n >>> 8) &&& 15),
   hexDigit ((n >>> 4) &&& 15), hexDigit (n &&& 15)]

/-- `json.dumps` escaping of one character (default `ensure_ascii=True`:
non-ASCII becomes `\uXXXX`, astral code points become surrogate pairs). -/
def jsonEscapeChar (c : Char) : List Char :=
  let n := c.toNat
  if c = '"' then ['\\', '"']
  else if c = '\\' then ['\\', '\\']
  else if n = 10 then ['\\', 'n']
  else if n = 9 then ['\\', 't']
  else if n = 13 then ['\\', 'r']
  else if n = 8 then ['\\', 'b']
  else if n = 12 then ['\\', 'f']
  else if n < 32 ∨ n > 126 then
    if n < 65536 then '\\' :: 'u' :: hex4 n
    else
      let m := n - 65536
      ('\\' :: 'u' :: hex4 (55296 + (m >>> 10))) ++
        ('\\' :: 'u' :: hex4 (56320 + (m &&& 1023)))
  else [c]

/-- `json.dumps` escaping of a string body (without the enclosing quotes). -/
def jsonEscape (s : String) : String :=
  String.mk (s.toList.flatMap jsonEscapeChar)

mutual

/-- CPython's `json.dumps` with default arguments: item separator `", "`,
key separator `": "`, keys in dict insertion order, `ensure_ascii`. -/
def jsonDumps : JValue → String
  | .null => "null"
  | .bool true => "true"
  | .bool false => "false"
  | .num n => toString n
  | .str s => "\"" ++ jsonEscape s ++ "\""
  | .arr xs => "[" ++ jsonDumpsElems xs ++ "]"
  | .obj fs => "\x7b" ++ jsonDumpsFields fs ++ "\x7d"

/-- Array elements joined by `", "`. -/
def jsonDumpsElems : List JValue → String
  | [] => ""
  | [x] => jsonDumps x
  | x :: y :: rest => jsonDumps x ++ ", " ++ jsonDumpsElems (y :: rest)

/-- Object members `"key": value` joined by `", "`. -/
def jsonDumpsFields : List (String × JValue) → String
  | [] => ""
  | [(k, v)] => "\"" ++ jsonEscape k ++ "\": " ++ jsonDumps v
  | (k, v) :: y :: rest =>
      "\"" ++ jsonEscape k ++ "\": " ++ jsonDumps v ++ ", " ++
        jsonDumpsFields (y :: rest)

end

/-- A single-quote string, used by Python `repr`. -/
def sq : String := String.mk [Char.ofNat 39]

mutual

/-- Python `repr()` of a decoded JSON value (`None`, `True`, `1`,
single-quoted strings, `[...]`, and dict displays).  String quoting models
the common case of quote-free content; only `str`/`int`/`bool`/`None`
values reach Python's formatting in the SDK's error path. -/
def pyRepr : JValue → String
  | .null => "None"
  | .bool true => "True"
  | .bool false => "False"
  | .num n => toString n
  | .str s => sq ++ s ++ sq
  | .arr xs => "[" ++ pyReprElems xs ++ "]"
  | .obj fs => "\x7b" ++ pyReprFields fs ++ "\x7d"

/-- List elements joined by `", "` in Python `repr`. -/
def pyReprElems : List JValue → String
  | [] => ""
  | [x] => pyRepr x
  | x :: y :: rest => pyRepr x ++ ", " ++ pyReprElems (y :: rest)

/-- Dict members in Python `repr`. -/
def pyReprFields : List (String × JValue) → String
  | [] => ""
  | [(k, v)] => sq ++ k ++ sq ++ ": " ++ pyRepr v
  | (k, v) :: y :: rest =>
      sq ++ k ++ sq ++ ": " ++ pyRepr v ++ ", " ++ pyReprFields (y :: rest)

end

/-- Python `str()` of a decoded JSON value, as an f-string applies it:
identity on strings, `repr`-style display otherwise. -/
def pyStr : JValue → String
  | .str s => s
  | v => pyRepr v

/-- Python `dict.get(k)`: `None` when absent; with JSON-object input the
last duplicate key wins, as in `json.loads`. -/
def jobjGet (fields : JObj) (k : String) : Option JValue :=
  ((fields.filter (fun p => p.1 == k)).map (fun p => p.2)).getLast?

/-! ## A JSON reader, standing for `response.json()` / `json.loads`

An executable recursive-descent reader written as a state machine with an
explicit stack of open containers, so that it is structurally recursive on
a fuel argument and the kernel can evaluate it.  It accepts the strict
`json.loads` grammar restricted to integer numerals (no floats, no
`NaN`/`Infinity`). -/

/-- JSON insignificant whitespace, as `json.loads` skips it. -/
def skipWs (cs : List Char) : List Char :=
  cs.dropWhile (fun c => c == ' ' || c == '\t' || c == '\n' || c == '\r')

/-- Value of a hex digit, 16 on a non-digit. -/
def hexCharVal (c : Char) : Nat :=
  if '0' ≤ c ∧ c ≤ '9' then c.toNat - 48
  else if 'a' ≤ c ∧ c ≤ 'f' then c.toNat - 87
  else if 'A' ≤ c ∧ c ≤ 'F' then c.toNat - 55
  else 16

/-- Read a JSON string body after the opening quote: the contents and the
remaining input past the closing quote.  Strict mode: unescaped control
characters and unknown escapes are rejected. -/
def readStringBody : List Char → Option (List Char × List Char)
  | [] => none
  | '"' :: rest => some ([], rest)
  | '\\' :: 'u' :: a :: b :: c :: d :: rest =>
      let va := hexCharVal a
      let vb := hexCharVal b
      let vc := hexCharVal c
      let vd := hexCharVal d
      if va < 16 ∧ vb < 16 ∧ vc < 16 ∧ vd < 16 then
        (readStringBody rest).map
          (fun p => (Char.ofNat (((va * 16 + vb) * 16 + vc) * 16 + vd) :: p.1, p.2))
      else none
  | '\\' :: e :: rest =>
      let esc : Option Char :=
        if e = '"' then some '"'
        else if e = '\\' then some '\\'
        else if e = '/' then some '/'
        else if e = 'n' then some '\n'
        else if e = 't' then some '\t'
        else if e = 'r' then some '\r'
        else if e = 'b' then some (Char.ofNat 8)
        else if e = 'f' then some (Char.ofNat 12)
        else none
      match esc with
      | some c => (readStringBody rest).map (fun p => (c :: p.1, p.2))
      | none => none
  | c :: rest =>
      if c.toNat < 32 then none
      else (readStringBody rest).map (fun p => (c :: p.1, p.2))

/-- Numeric value of a digit run. -/
def digitsVal (ds : List Char) : Nat :=
  ds.foldl (fun a c => 10 * a + (c.toNat - 48)) 0

/-- Read an unsigned integer numeral; float syntax falls outside the
modelled subset and is rejected. -/
def readNat (cs : List Char) : Option (Nat × List Char) :=
  let ds := cs.takeWhile Char.isDigit
  let rest := cs.dropWhile Char.isDigit
  if ds.isEmpty then none
  else
    match rest with
    | '.' :: _ => none
    | 'e' :: _ => none
    | 'E' :: _ => none
    | _ => some (digitsVal ds, rest)

/-- An open container on the reader's stack: an array with the elements
read so far, or an object with the members read so far plus the key whose
value is pending. -/
inductive JFrame where
  | arrF (acc : List JValue)
  | objF (acc : List (String × JValue)) (key : String)

/-- One-token-at-a-time JSON reader.  `cur = none` means a value is
expected next; `cur = some v` means `v` was just produced and a comma or a
closing bracket of the innermost open container must follow.  Each
recursive call consumes at least one input character, so fuel
`|input| + 2` always suffices. -/
def jsonRun : Nat → Option JValue → List Char → List JFrame → Option JValue
  | 0, _, _, _ => none
  | _ + 1, some v, cs, [] =>
      if (skipWs cs).isEmpty then some v else none
  | fuel + 1, some v, cs, .arrF acc :: st =>
      match skipWs cs with
      | ',' :: cs2 => jsonRun fuel none cs2 (.arrF (v :: acc) :: st)
      | ']' :: cs2 => jsonRun fuel (some (.arr (v :: acc).reverse)) cs2 st
      | _ => none
  | fuel + 1, some v, cs, .objF acc key :: st =>
      match skipWs cs with
      | ',' :: cs2 =>
          match skipWs cs2 with
          | '"' :: cs3 =>
              match readStringBody cs3 with
              | some (kcs, cs4) =>
                  match skipWs cs4 with
                  | ':' :: cs5 =>
                      jsonRun fuel none cs5
                        (.objF ((key, v) :: acc) (String.mk kcs) :: st)
                  | _ => none
              | none => none
          | _ => none
      | '}' :: cs2 =>
          jsonRun fuel (some (.obj ((key, v) :: acc).reverse)) cs2 st
      | _ => none
  | fuel + 1, none, cs, st =>
      match skipWs cs with
      | '"' :: cs2 =>
          match readStringBody cs2 with
          | some (scs, cs3) => jsonRun fuel (some (.str (String.mk scs))) cs3 st
          | none => none
      | '[' :: cs2 =>
          match skipWs cs2 with
          | ']' :: cs3 => jsonRun fuel (some (.arr [])) cs3 st
          | _ => jsonRun fuel none cs2 (.arrF [] :: st)
      | '{' :: cs2 =>
          match skipWs cs2 with
          | '}' :: cs3 => jsonRun fuel (some (.obj [])) cs3 st
          | '"' :: cs3 =>
              match readStringBody cs3 with
              | some (kcs, cs4) =>
                  match skipWs cs4 with
                  | ':' :: cs5 => jsonRun fuel none cs5 (.objF [] (String.mk kcs) :: st)
                  | _ => none
              | none => none
          | _ => none
      | 't' :: 'r' :: 'u' :: 'e' :: cs2 => jsonRun fuel (some (.bool true)) cs2 st
      | 'f' :: 'a' :: 'l' :: 's' :: 'e' :: cs2 => jsonRun fuel (some (.bool false)) cs2 st
      | 'n' :: 'u' :: 'l' :: 'l' :: cs2 => jsonRun fuel (some .null) cs2 st
      | '-' :: cs2 =>
          match readNat cs2 with
          | some (n, cs3) => jsonRun fuel (some (.num (-(n : Int)))) cs3 st
          | none => none
      | c :: cs2 =>
          if c.isDigit then
            match readNat (c :: cs2) with
            | some (n, cs3) => jsonRun fuel (some (.num (n : Int))) cs3 st
            | none => none
          else none
      | [] => none

/-- `json.loads` on the modelled subset: `none` when the text does not
parse (where CPython raises `json.JSONDecodeError`). -/
def jsonLoads (s : String) : Option JValue :=
  jsonRun (2 * s.length + 8) none s.toList []

/-! ## The client (`src/accessgrid/client.py`)

The Python module's state is three immutable strings set in
`AccessGrid.__init__`; the `access_cards`/`console` attributes are method
namespaces closed over the client, so here they are functions taking the
client.  A request-issuing method splits into the pure request it sends
(`HttpRequest`) and the handling of a given server response; the network
itself is the out-of-scope collaborator. -/

/-- Exceptions the module can raise.  `valueError` is Python's builtin
`ValueError` (what `__init__` raises — §7 of the design calls this case
`ConfigurationError`); `authenticationError` and `accessGridError` are the
SDK's classes; `jsonDecodeError` is `response.json()` raising on
unparseable text; `attributeError` is `.get` on a non-dict. -/
inductive PyError where
  | valueError (msg : String)
  | authenticationError (msg : String)
  | accessGridError (msg : String)
  | jsonDecodeError
  | attributeError
deriving Repr, DecidableEq

/-- The `__version__` fallback: `importlib.metadata.version` is host
environment state, so the module-level `except` branch value stands in. -/
def agVersion : String := "unknown"

/-- The client's configuration, as stored by `AccessGrid.__init__`. -/
structure AccessGrid where
  account_id : String
  secret_key : String
  base_url : String

/-- Python's `str.rstrip('/')`: remove every trailing slash. -/
def rstripSlash (s : String) : String :=
  String.mk (s.toList.reverse.dropWhile (fun c => c == '/')).reverse

/-- The default `base_url` parameter. -/
def defaultBaseUrl : String := "https://api.accessgrid.com"

/-- `AccessGrid.__init__`: empty (falsy) `account_id` or `secret_key`
raises `ValueError` before anything else happens; otherwise the three
configuration strings are stored, the base URL with trailing slashes
stripped. -/
def AccessGrid.init (account_id secret_key base_url : String) :
    Except PyError AccessGrid :=
  if account_id = "" then .error (.valueError "Account ID is required")
  else if secret_key = "" then .error (.valueError "Secret Key is required")
  else .ok { account_id := account_id, secret_key := secret_key,
             base_url := rstripSlash base_url }

/-- `AccessGrid._generate_signature`: base64-encode the payload text's
UTF-8 bytes, then HMAC-SHA256 that base64 text with the secret key, hex
lowercase. -/
def AccessGrid.generate_signature (c : AccessGrid) (payload : String) : String :=
  let encoded_payload := base64Encode (strBytes payload)
  hexLower (hmacSha256 (strBytes c.secret_key) (strBytes encoded_payload))

/-- The outbound HTTP request `requests.request(...)` is called with:
method, url, headers, the `json=` body (`None` or a dict), and the
`params=` query mapping. -/
structure HttpRequest where
  method : String
  url : String
  headers : List (String × String)
  body : Option JObj
  params : Option JObj

/-- The part of the HTTP response `_make_request` looks at. -/
structure HttpResponse where
  status_code : Nat
  text : String

/-- Python truthiness of an optional dict: `None` and `{}` are falsy. -/
def dictTruthy : Option JObj → Bool
  | none => false
  | some d => !d.isEmpty

/-- The request `AccessGrid._make_request` sends: url is base_url ++
endpoint; the signed payload is `json.dumps(data) if data else ""`; the
body is `data if data else None`; the four headers are fixed. -/
def AccessGrid.make_request (c : AccessGrid) (method endpoint : String)
    (data : Option JObj) (params : Option JObj) : HttpRequest :=
  let payload := if dictTruthy data then jsonDumps (.obj (data.getD [])) else ""
  { method := method
    url := c.base_url ++ endpoint
    headers := [("X-ACCT-ID", c.account_id),
                ("X-PAYLOAD-SIG", c.generate_signature payload),
                ("Content-Type", "application/json"),
                ("User-Agent", "accessgrid.py @ v" ++ agVersion)]
    body := if dictTruthy data then data else none
    params := params }

/-- First matching header value. -/
def headerGet (req : HttpRequest) (name : String) : Option String :=
  List.lookup name req.headers

/-- `error_data = response.json() if response.text else {}` on the
non-2xx path. -/
def errorDataOf (text : String) : Option JValue :=
  if text = "" then some (.obj []) else jsonLoads text

/-- How `AccessGrid._make_request` treats the response it received:
401 → `AuthenticationError("Invalid credentials")`; 402 →
`AccessGridError("Insufficient account balance")`; any other status
outside [200, 300) → `AccessGridError` with message
`"API request failed: "` followed by `error_data.get('message',
response.text)` (on unparseable text `response.json()` raises instead,
and on a non-dict body `.get` raises); a 2xx status returns
`response.json()`. -/
def handle_response (response : HttpResponse) : Except PyError JValue :=
  if response.status_code = 401 then
    .error (.authenticationError "Invalid credentials")
  else if response.status_code = 402 then
    .error (.accessGridError "Insufficient account balance")
  else if ¬(200 ≤ response.status_code ∧ response.status_code < 300) then
    match errorDataOf response.text with
    | none => .error .jsonDecodeError
    | some (.obj fields) =>
        let error_message :=
          match jobjGet fields "message" with
          | some v => pyStr v
          | none => response.text
        .error (.accessGridError ("API request failed: " ++ error_message))
    | some _ => .error .attributeError
  else
    match jsonLoads response.text with
    | some j => .ok j
    | none => .error .jsonDecodeError

/-- `AccessGrid._get`. -/
def AccessGrid.get_req (c : AccessGrid) (endpoint : String)
    (params : Option JObj) : HttpRequest :=
  c.make_request "GET" endpoint none params

/-- `AccessGrid._post`. -/
def AccessGrid.post_req (c : AccessGrid) (endpoint : String) (data : JObj) :
    HttpRequest :=
  c.make_request "POST" endpoint (some data) none

/-- `AccessGrid._put`. -/
def AccessGrid.put_req (c : AccessGrid) (endpoint : String) (data : JObj) :
    HttpRequest :=
  c.make_request "PUT" endpoint (some data) none

/-- `AccessGrid._patch`. -/
def AccessGrid.patch_req (c : AccessGrid) (endpoint : String) (data : JObj) :
    HttpRequest :=
  c.make_request "PATCH" endpoint (some data) none

/-! ## Result entities -/

/-- `AccessCard`: five fields copied with `data.get`, each `None` when the
key is absent (the `_client` back-reference carries no data and is
omitted). -/
structure AccessCard where
  id : Option JValue
  url : Option JValue
  state : Option JValue
  full_name : Option JValue
  expiration_date : Option JValue

/-- `AccessCard.__init__` on a decoded response object. -/
def AccessCard.ofData (data : JObj) : AccessCard :=
  { id := jobjGet data "id"
    url := jobjGet data "install_url"
    state := jobjGet data "state"
    full_name := jobjGet data "full_name"
    expiration_date := jobjGet data "expiration_date" }

/-- `Template`: thirteen fields copied with `data.get`. -/
structure Template where
  id : Option JValue
  name : Option JValue
  platform : Option JValue
  use_case : Option JValue
  protocol : Option JValue
  created_at : Option JValue
  last_published_at : Option JValue
  issued_keys_count : Option JValue
  active_keys_count : Option JValue
  allowed_device_counts : Option JValue
  support_settings : Option JValue
  terms_settings : Option JValue
  style_settings : Option JValue

/-- `Template.__init__` on a decoded response object. -/
def Template.ofData (data : JObj) : Template :=
  { id := jobjGet data "id"
    name := jobjGet data "name"
    platform := jobjGet data "platform"
    use_case := jobjGet data "use_case"
    protocol := jobjGet data "protocol"
    created_at := jobjGet data "created_at"
    last_published_at := jobjGet data "last_published_at"
    issued_keys_count := jobjGet data "issued_keys_count"
    active_keys_count := jobjGet data "active_keys_count"
    allowed_device_counts := jobjGet data "allowed_device_counts"
    support_settings := jobjGet data "support_settings"
    terms_settings := jobjGet data "terms_settings"
    style_settings := jobjGet data "style_settings" }

/-! ## Resource clients -/

namespace AccessCards

/-- The request `AccessCards.issue` sends: `self._client._post('/v1/key-cards', kwargs)`. -/
def issue_request (c : AccessGrid) (kwargs : JObj) : HttpRequest :=
  c.post_req "/v1/key-cards" kwargs

/-- The entity `AccessCards.issue` builds from the call's result:
`AccessCard(self._client, response)` (a non-dict response would make the
entity's `.get` calls raise). -/
def issue_result (resp : HttpResponse) : Except PyError AccessCard :=
  match handle_response resp with
  | .ok (.obj fields) => .ok (AccessCard.ofData fields)
  | .ok _ => .error .attributeError
  | .error e => .error e

/-- `AccessCards.provision` is `return self.issue(**kwargs)`. -/
def provision_request (c : AccessGrid) (kwargs : JObj) : HttpRequest :=
  issue_request c kwargs

/-- Result construction of `AccessCards.provision`, by the same delegation. -/
def provision_result (resp : HttpResponse) : Except PyError AccessCard :=
  issue_result resp

/-- The request `AccessCards.update` sends. -/
def update_request (c : AccessGrid) (card_id : String) (kwargs : JObj) :
    HttpRequest :=
  c.put_req ("/v1/key-cards/" ++ card_id) kwargs

/-- The request `AccessCards.manage` sends:
`self._client._post(f'/v1/key-cards/{card_id}/{action}', {})` — the path is
built by f-string interpolation and the body is the empty dict. -/
def manage_request (c : AccessGrid) (card_id action : String) : HttpRequest :=
  c.post_req ("/v1/key-cards/" ++ card_id ++ "/" ++ action) []

/-- `AccessCards.suspend`: `self.manage(card_id, 'suspend')`. -/
def suspend_request (c : AccessGrid) (card_id : String) : HttpRequest :=
  manage_request c card_id "suspend"

/-- `AccessCards.resume`: `self.manage(card_id, 'resume')`. -/
def resume_request (c : AccessGrid) (card_id : String) : HttpRequest :=
  manage_request c card_id "resume"

/-- `AccessCards.unlink`: `self.manage(card_id, 'unlink')`. -/
def unlink_request (c : AccessGrid) (card_id : String) : HttpRequest :=
  manage_request c card_id "unlink"

end AccessCards

namespace Console

/-- The request `Console.create_template` sends. -/
def create_template_request (c : AccessGrid) (kwargs : JObj) : HttpRequest :=
  c.post_req "/v1/console/card-templates" kwargs

/-- The request `Console.update_template` sends. -/
def update_template_request (c : AccessGrid) (template_id : String)
    (kwargs : JObj) : HttpRequest :=
  c.put_req ("/v1/console/card-templates/" ++ template_id) kwargs

/-- The request `Console.read_template` sends. -/
def read_template_request (c : AccessGrid) (template_id : String) : HttpRequest :=
  c.get_req ("/v1/console/card-templates/" ++ template_id) none

/-- The entity `Console.read_template` builds from the call's result. -/
def read_template_result (resp : HttpResponse) : Except PyError Template :=
  match handle_response resp with
  | .ok (.obj fields) => .ok (Template.ofData fields)
  | .ok _ => .error .attributeError
  | .error e => .error e

/-- The request `Console.get_logs` sends (kwargs become query params). -/
def get_logs_request (c : AccessGrid) (template_id : String) (kwargs : JObj) :
    HttpRequest :=
  c.get_req ("/v1/console/card-templates/" ++ template_id ++ "/logs") (some kwargs)

end Console

/-! ## Helper lemmas about response classification -/

/-- On a status that is neither 401 nor 402 nor 2xx, `_make_request` goes
through the `error_data` branch. -/
theorem handle_response_of_other_status (s : Nat) (t : String)
    (h1 : s ≠ 401) (h2 : s ≠ 402) (h3 : ¬(200 ≤ s ∧ s < 300)) :
    handle_response ⟨s, t⟩ =
      match errorDataOf t with
      | none => .error .jsonDecodeError
      | some (.obj fields) =>
          .error (.accessGridError ("API request failed: " ++
            (match jobjGet fields "message" with
             | some v => pyStr v
             | none => t)))
      | some _ => .error .attributeError := by
  simp [handle_response, h1, h2, h3]

/-- On a 2xx status, `_make_request` returns `response.json()`. -/
theorem handle_response_of_2xx (s : Nat) (t : String)
    (h3 : 200 ≤ s ∧ s < 300) :
    handle_response ⟨s, t⟩ =
      match jsonLoads t with
      | some j => .ok j
      | none => .error .jsonDecodeError := by
  have h1 : s ≠ 401 := by omega
  have h2 : s ≠ 402 := by omega
  simp [handle_response, h1, h2, h3]

/-! ## The claims -/

/-- C1: for every request built by `_make_request`, the `X-PAYLOAD-SIG`
header is the lowercase hex HMAC-SHA256, keyed by the client's
`secret_key`, of the base64 of the UTF-8 bytes of the JSON serialization
of the request body (of the empty string when the request carries no
body); and for `secret_key` `"s3cret"` and body
`{"full_name": "Jane Doe", "expiration_date": "2026-01-01"}` the
signature is exactly
hex(HMAC-SHA256("s3cret", base64 of that serialization)). -/
theorem c1_payload_signature (c : AccessGrid) (method endpoint : String)
    (data params : Option JObj) :
    headerGet (c.make_request method endpoint data params) "X-PAYLOAD-SIG" =
      some (hexLower (hmacSha256 (strBytes c.secret_key) (strBytes (base64Encode
        (strBytes ((c.make_request method endpoint data params).body.elim ""
          (fun d => jsonDumps (.obj d)))))))) ∧
    headerGet (AccessCards.issue_request ⟨"acct_1", "s3cret", defaultBaseUrl⟩
        [("full_name", .str "Jane Doe"), ("expiration_date", .str "2026-01-01")])
        "X-PAYLOAD-SIG" =
      some "b49a86c0d2bfc803baf6a77a9f355c262b09bff1863257f04e2dc6dba87f6ce7" ∧
    "b49a86c0d2bfc803baf6a77a9f355c262b09bff1863257f04e2dc6dba87f6ce7" =
      hexLower (hmacSha256 (strBytes "s3cret") (strBytes (base64Encode (strBytes
        "\x7b\"full_name\": \"Jane Doe\", \"expiration_date\": \"2026-01-01\"\x7d")))) := by
  refine ⟨?_, rfl, rfl⟩
  cases data with
  | none => rfl
  | some d => cases d with
    | nil => rfl
    | cons p rest => rfl

/-- C3: whenever no (truthy) body is supplied, the signed text is the
base64 encoding of the empty string — the signature is
hex(HMAC-SHA256(secret_key, base64(""))) — and that base64 encoding is
itself the empty string, not a null or omitted value. -/
theorem c3_empty_body_signature (c : AccessGrid) (method endpoint : String)
    (data params : Option JObj) (h : dictTruthy data = false) :
    headerGet (c.make_request method endpoint data params) "X-PAYLOAD-SIG" =
      some (hexLower (hmacSha256 (strBytes c.secret_key)
        (strBytes (base64Encode (strBytes ""))))) ∧
    base64Encode (strBytes "") = "" := by
  refine ⟨?_, rfl⟩
  simp only [AccessGrid.make_request, h, headerGet, AccessGrid.generate_signature,
    Bool.false_eq_true, if_false]
  rfl

/-- Witness for C3 at a concrete GET request with no body. -/
theorem c3_empty_body_signature_witness :
    headerGet (AccessGrid.make_request ⟨"acct_1", "s3cret", defaultBaseUrl⟩
        "GET" "/v1/key-cards" none none) "X-PAYLOAD-SIG" =
      some (hexLower (hmacSha256 (strBytes "s3cret")
        (strBytes (base64Encode (strBytes ""))))) :=
  (c3_empty_body_signature ⟨"acct_1", "s3cret", defaultBaseUrl⟩
    "GET" "/v1/key-cards" none none rfl).1

/-- C5: `provision` delegates to `issue`, so for every input the outbound
request (method, path, body, headers) and the resulting `AccessCard` are
identical — the two operations never diverge. -/
theorem c5_provision_issue_alias (c : AccessGrid) (kwargs : JObj)
    (resp : HttpResponse) :
    AccessCards.provision_request c kwargs = AccessCards.issue_request c kwargs ∧
    AccessCards.provision_result resp = AccessCards.issue_result resp :=
  ⟨rfl, rfl⟩

/-- C9: `_generate_signature` is a pure deterministic function of
(secret_key, payload) — repeated application to the same inputs is
byte-identical, and on concrete trivial inputs a change of body or of
secret changes the signature. -/
theorem c9_signature_determinism (c : AccessGrid) (payload : String) :
    c.generate_signature payload = c.generate_signature payload ∧
    AccessGrid.generate_signature ⟨"acct_1", "s3cret", defaultBaseUrl⟩ "" ≠
      AccessGrid.generate_signature ⟨"acct_1", "s3cret", defaultBaseUrl⟩ "\x7b\x7d" ∧
    AccessGrid.generate_signature ⟨"acct_1", "s3cret", defaultBaseUrl⟩ "" ≠
      AccessGrid.generate_signature ⟨"acct_1", "other", defaultBaseUrl⟩ "" ∧
    AccessGrid.generate_signature ⟨"acct_1", "s3cret", defaultBaseUrl⟩ "\x7b\x7d" ≠
      AccessGrid.generate_signature ⟨"acct_1", "other", defaultBaseUrl⟩ "\x7b\x7d" :=
  ⟨rfl, by decide, by decide, by decide⟩

/-- C10: request paths are built by direct string interpolation into the
endpoint template with no URL/percent-encoding — `_make_request` prepends
`base_url` to the endpoint verbatim, and an identifier holding reserved
characters such as `/`, `?` or spaces lands in the URL unchanged. -/
theorem c10_path_interpolation (c : AccessGrid)
    (card_id action template_id : String) (kwargs : JObj) :
    (AccessCards.manage_request c card_id action).url =
      c.base_url ++ ("/v1/key-cards/" ++ card_id ++ "/" ++ action) ∧
    (AccessCards.update_request c card_id kwargs).url =
      c.base_url ++ ("/v1/key-cards/" ++ card_id) ∧
    (Console.read_template_request c template_id).url =
      c.base_url ++ ("/v1/console/card-templates/" ++ template_id) ∧
    (Console.get_logs_request c template_id kwargs).url =
      c.base_url ++ ("/v1/console/card-templates/" ++ template_id ++ "/logs") ∧
    (AccessCards.manage_request ⟨"acct_1", "s3cret", defaultBaseUrl⟩
        "room 7/a?b=c d" "suspend").url =
      "https://api.accessgrid.com/v1/key-cards/room 7/a?b=c d/suspend" :=
  ⟨rfl, rfl, rfl, rfl, by rfl⟩

/-- C2 (counterexample): three divergences from the claimed
classification.  The code's 402 message is
`"Insufficient account balance"`, not the claimed
`"insufficient account balance"`; the generic message is prefixed with
`"API request failed: "` rather than being the bare `message` field — at
status 500 with body `{"message": "boom"}` the raised message is
`"API request failed: boom"`, not `"boom"`; and for a non-2xx body that
does not parse, `response.json()`'s decode error surfaces instead of the
claimed generic service error carrying the raw response text (likewise a
body parsing to a non-object hits `.get` and raises). -/
theorem c2_response_classification_counterexample :
    handle_response ⟨402, ""⟩ =
      .error (.accessGridError "Insufficient account balance") ∧
    "Insufficient account balance" ≠ "insufficient account balance" ∧
    handle_response ⟨500, "\x7b\"message\": \"boom\"\x7d"⟩ =
      .error (.accessGridError "API request failed: boom") ∧
    "API request failed: boom" ≠ "boom" ∧
    handle_response ⟨500, "oops"⟩ = .error .jsonDecodeError ∧
    (Except.error PyError.jsonDecodeError : Except PyError JValue) ≠
      .error (.accessGridError "API request failed: oops") ∧
    handle_response ⟨500, "[1]"⟩ = .error .attributeError :=
  ⟨rfl, by decide, by rfl, by decide, by rfl, by simp, by rfl⟩

/-- C2 (amended): status 401 raises `AuthenticationError("Invalid
credentials")` and no other status raises `AuthenticationError`; status
402 raises the generic service error with the fixed message
`"Insufficient account balance"`; for any other status outside
[200, 300): a body that is empty or parses as a JSON object raises the
generic service error with message `"API request failed: "` followed by
the body's `message` field when present (via Python `str()`), else by
the raw response text; a non-empty body that does not parse surfaces
`response.json()`'s decode error rather than a service error; and a body
parsing to a non-object surfaces the `.get` attribute error. -/
theorem c2_response_classification_amended (s : Nat) (t : String) :
    (s = 401 →
      handle_response ⟨s, t⟩ = .error (.authenticationError "Invalid credentials")) ∧
    (∀ m, handle_response ⟨s, t⟩ = .error (.authenticationError m) → s = 401) ∧
    (s = 402 →
      handle_response ⟨s, t⟩ =
        .error (.accessGridError "Insufficient account balance")) ∧
    (¬(200 ≤ s ∧ s < 300) → s ≠ 401 → s ≠ 402 →
      ∀ fields, errorDataOf t = some (.obj fields) →
        handle_response ⟨s, t⟩ =
          .error (.accessGridError ("API request failed: " ++
            (jobjGet fields "message").elim t pyStr))) ∧
    (¬(200 ≤ s ∧ s < 300) → s ≠ 401 → s ≠ 402 →
      errorDataOf t = none →
        handle_response ⟨s, t⟩ = .error .jsonDecodeError) ∧
    (¬(200 ≤ s ∧ s < 300) → s ≠ 401 → s ≠ 402 →
      ∀ v, errorDataOf t = some v → (∀ fields, v ≠ .obj fields) →
        handle_response ⟨s, t⟩ = .error .attributeError) := by
  refine ⟨?_, ?_, ?_, ?_, ?_, ?_⟩
  · intro h
    subst h
    rfl
  · intro m hm
    by_contra h1
    by_cases h2 : s = 402
    · subst h2
      rw [show handle_response ⟨402, t⟩ =
            .error (.accessGridError "Insufficient account balance") from rfl] at hm
      simp at hm
    · by_cases h3 : 200 ≤ s ∧ s < 300
      · rw [handle_response_of_2xx s t h3] at hm
        rcases hj : jsonLoads t with _ | j <;> rw [hj] at hm <;> simp at hm
      · rw [handle_response_of_other_status s t h1 h2 h3] at hm
        rcases he : errorDataOf t with _ | j
        · rw [he] at hm
          simp at hm
        · rw [he] at hm
          rcases j with _ | b | n | str | xs | fields <;> simp at hm
  · intro h
    subst h
    rfl
  · intro h3 h1 h2 fields hf
    rcases hm : jobjGet fields "message" with _ | v <;>
      simp [handle_response_of_other_status s t h1 h2 h3, hf, hm, Option.elim]
  · intro h3 h1 h2 hn
    rw [handle_response_of_other_status s t h1 h2 h3, hn]
  · intro h3 h1 h2 v hv hno
    rw [handle_response_of_other_status s t h1 h2 h3, hv]
    cases v with
    | null => rfl
    | bool b => rfl
    | num n => rfl
    | str s2 => rfl
    | arr xs => rfl
    | obj fields => exact absurd rfl (hno fields)

/-- Witness for C2 at status 403 with body `{"message": "denied"}` and at
status 500 with an unparseable body. -/
theorem c2_response_classification_witness :
    handle_response ⟨403, "\x7b\"message\": \"denied\"\x7d"⟩ =
      .error (.accessGridError "API request failed: denied") ∧
    handle_response ⟨500, "nope"⟩ = .error .jsonDecodeError :=
  ⟨(c2_response_classification_amended 403
        "\x7b\"message\": \"denied\"\x7d").2.2.2.1
      (by decide) (by decide) (by decide)
      [("message", .str "denied")] (by rfl),
   (c2_response_classification_amended 500 "nope").2.2.2.2.1
      (by decide) (by decide) (by decide) (by rfl)⟩

/-- C4 (counterexample): `manage` performs no validation of the action
string — with the out-of-set action `"explode"` it still issues a POST
(here with every concrete request field, signature included), so the
claimed rejection before any network call does not happen. -/
theorem c4_manage_actions_counterexample :
    AccessCards.manage_request ⟨"acct_1", "s3cret", defaultBaseUrl⟩
        "card_1" "explode" =
      { method := "POST"
        url := "https://api.accessgrid.com/v1/key-cards/card_1/explode"
        headers := [("X-ACCT-ID", "acct_1"),
          ("X-PAYLOAD-SIG",
            "91dfac70c5348b04e1babb8b421ac92cec08b565b49ca16130dccb72503647b7"),
          ("Content-Type", "application/json"),
          ("User-Agent", "accessgrid.py @ vunknown")]
        body := none
        params := none } := by
  rfl

/-- C4 (amended): `suspend`/`resume`/`unlink` each delegate to `manage`
with exactly their action string, and `manage` issues one POST to
`/v1/key-cards/{card_id}/{action}` with an empty body for every action
string — including ones outside `{suspend, resume, unlink}`: no
validation occurs and no action value is rejected. -/
theorem c4_manage_actions_amended (c : AccessGrid) (card_id : String) :
    AccessCards.suspend_request c card_id =
      AccessCards.manage_request c card_id "suspend" ∧
    AccessCards.resume_request c card_id =
      AccessCards.manage_request c card_id "resume" ∧
    AccessCards.unlink_request c card_id =
      AccessCards.manage_request c card_id "unlink" ∧
    ∀ action : String, AccessCards.manage_request c card_id action =
      { method := "POST"
        url := c.base_url ++ ("/v1/key-cards/" ++ card_id ++ "/" ++ action)
        headers := [("X-ACCT-ID", c.account_id),
          ("X-PAYLOAD-SIG", c.generate_signature ""),
          ("Content-Type", "application/json"),
          ("User-Agent", "accessgrid.py @ v" ++ agVersion)]
        body := none
        params := none } :=
  ⟨rfl, rfl, rfl, fun _ => rfl⟩

/-- C6: entity construction is total — `AccessCard` and `Template` copy
each documented field with `data.get`, a key that is absent in the
response mapping yields `None` for that field, and a mapping missing
every field (the empty mapping) still constructs. -/
theorem c6_entity_field_tolerance (data : JObj) :
    AccessCard.ofData data =
      { id := jobjGet data "id"
        url := jobjGet data "install_url"
        state := jobjGet data "state"
        full_name := jobjGet data "full_name"
        expiration_date := jobjGet data "expiration_date" } ∧
    Template.ofData data =
      { id := jobjGet data "id"
        name := jobjGet data "name"
        platform := jobjGet data "platform"
        use_case := jobjGet data "use_case"
        protocol := jobjGet data "protocol"
        created_at := jobjGet data "created_at"
        last_published_at := jobjGet data "last_published_at"
        issued_keys_count := jobjGet data "issued_keys_count"
        active_keys_count := jobjGet data "active_keys_count"
        allowed_device_counts := jobjGet data "allowed_device_counts"
        support_settings := jobjGet data "support_settings"
        terms_settings := jobjGet data "terms_settings"
        style_settings := jobjGet data "style_settings" } ∧
    (∀ k : String, (∀ p ∈ data, p.1 ≠ k) → jobjGet data k = none) ∧
    AccessCard.ofData [] = ⟨none, none, none, none, none⟩ ∧
    Template.ofData [] =
      ⟨none, none, none, none, none, none, none, none, none, none, none,
       none, none⟩ := by
  refine ⟨rfl, rfl, ?_, rfl, rfl⟩
  intro k hk
  have hfil : data.filter (fun p => p.1 == k) = [] := by
    rw [List.filter_eq_nil_iff]
    intro p hp
    simp [hk p hp]
  simp [jobjGet, hfil]

/-- Witness for C6 at a mapping that carries only `full_name`. -/
theorem c6_entity_field_tolerance_witness :
    jobjGet [("full_name", JValue.str "Jane Doe")] "id" = none ∧
    AccessCard.ofData [("full_name", JValue.str "Jane Doe")] =
      { id := jobjGet [("full_name", JValue.str "Jane Doe")] "id"
        url := jobjGet [("full_name", JValue.str "Jane Doe")] "install_url"
        state := jobjGet [("full_name", JValue.str "Jane Doe")] "state"
        full_name := jobjGet [("full_name", JValue.str "Jane Doe")] "full_name"
        expiration_date :=
          jobjGet [("full_name", JValue.str "Jane Doe")] "expiration_date" } :=
  ⟨(c6_entity_field_tolerance [("full_name", JValue.str "Jane Doe")]).2.2.1 "id"
      (by
        intro p hp
        rw [List.mem_singleton] at hp
        subst hp
        decide),
   (c6_entity_field_tolerance [("full_name", JValue.str "Jane Doe")]).1⟩

/-- C7: constructing the client with an empty `account_id` or
`secret_key` raises before anything else can happen (the constructor
performs no I/O: it only validates and stores), and on success the stored
configuration is exactly the given `account_id` and `secret_key` with the
trailing slashes of `base_url` stripped. -/
theorem c7_construction_validation :
    (∀ sk burl, AccessGrid.init "" sk burl =
      .error (.valueError "Account ID is required")) ∧
    (∀ aid burl, aid ≠ "" → AccessGrid.init aid "" burl =
      .error (.valueError "Secret Key is required")) ∧
    (∀ aid sk burl, aid ≠ "" → sk ≠ "" →
      AccessGrid.init aid sk burl = .ok ⟨aid, sk, rstripSlash burl⟩) ∧
    rstripSlash "https://staging.accessgrid.com/" =
      "https://staging.accessgrid.com" := by
  refine ⟨?_, ?_, ?_, by rfl⟩
  · intro sk burl
    simp [AccessGrid.init]
  · intro aid burl h
    simp [AccessGrid.init, h]
  · intro aid sk burl ha hs
    simp [AccessGrid.init, ha, hs]

/-- Witness for C7: empty secret key rejected; full construction with a
staging URL carrying a trailing slash. -/
theorem c7_construction_validation_witness :
    AccessGrid.init "acct_1" "" defaultBaseUrl =
      .error (.valueError "Secret Key is required") ∧
    AccessGrid.init "acct_1" "s3cret" "https://staging.accessgrid.com/" =
      .ok ⟨"acct_1", "s3cret", rstripSlash "https://staging.accessgrid.com/"⟩ :=
  ⟨c7_construction_validation.2.1 "acct_1" defaultBaseUrl (by decide),
   c7_construction_validation.2.2.1 "acct_1" "s3cret"
     "https://staging.accessgrid.com/" (by decide) (by decide)⟩

/-- C8 (counterexample): on a 200 response with an empty body,
`response.json()` has nothing to parse and raises — the operation does
not return a mapping with no fields. -/
theorem c8_empty_success_body_counterexample :
    handle_response ⟨200, ""⟩ = .error .jsonDecodeError ∧
    handle_response ⟨200, ""⟩ ≠ .ok (.obj []) := by
  refine ⟨rfl, ?_⟩
  intro h
  rw [show handle_response ⟨200, ""⟩ = .error .jsonDecodeError from rfl] at h
  simp at h

/-- C8 (amended): for a 2xx response whose body parses as JSON the
operation returns the parsed body, but for an empty 2xx body
`response.json()` fails and an error is raised instead of an empty
mapping being returned. -/
theorem c8_empty_success_body_amended (s : Nat) (t : String) :
    handle_response ⟨200, ""⟩ = .error .jsonDecodeError ∧
    (200 ≤ s → s < 300 → ∀ j, jsonLoads t = some j →
      handle_response ⟨s, t⟩ = .ok j) ∧
    (200 ≤ s → s < 300 → jsonLoads t = none →
      handle_response ⟨s, t⟩ = .error .jsonDecodeError) := by
  refine ⟨rfl, ?_, ?_⟩
  · intro hs1 hs2 j hj
    rw [handle_response_of_2xx s t ⟨hs1, hs2⟩, hj]
  · intro hs1 hs2 hj
    rw [handle_response_of_2xx s t ⟨hs1, hs2⟩, hj]

/-- Witness for C8 at a 200 response with body `{"id": "key_1"}`. -/
theorem c8_empty_success_body_witness :
    handle_response ⟨200, "\x7b\"id\": \"key_1\"\x7d"⟩ =
      .ok (.obj [("id", .str "key_1")]) :=
  (c8_empty_success_body_amended 200 "\x7b\"id\": \"key_1\"\x7d").2.1
    (by decide) (by decide) (.obj [("id", .str "key_1")]) (by rfl)

end AccessGridPy
